import Mathlib

/-!
Verification of the query-subscription consumer core
(`src/sentry/snuba/query_subscriptions/run.py`).

The per-message processor, the strategy factory and the consumer
constructor are embedded shallowly from the source.  Components the
source only imports (the arroyo processing strategies, the
multiprocessing pool from `sentry.utils.arroyo`, the topic/dataset
constant maps, the schema codec registry) are modelled from the design
specification, as marked on each definition.
-/

namespace SubscriptionConsumer

/-- Modelled from the spec: `sentry.snuba.dataset.Dataset` (not under the
sources given), the domain enum a topic maps to; only its string `value`
is used by the consumer core. -/
structure Dataset where
  value : String
  deriving Repr, DecidableEq

/-- Modelled from the spec: `arroyo.backends.kafka.KafkaPayload`; raw
bytes are lists of naturals. -/
structure KafkaPayload where
  key : Option (List Nat)
  value : List Nat
  headers : List (String × List Nat)
  deriving Repr, DecidableEq

/-- Modelled from the spec: `arroyo.types.Partition`, an ordered sub-log
of a topic identified by (topic, index). -/
structure Partition where
  topic : String
  index : Nat
  deriving Repr, DecidableEq

/-- Modelled from the spec: `arroyo.types.BrokerValue`, a payload
together with the partition, offset and timestamp the broker delivered
it at. -/
structure BrokerValue where
  payload : KafkaPayload
  partition : Partition
  offset : Nat
  timestamp : Nat
  deriving Repr, DecidableEq

/-- Modelled from the spec: an `arroyo.types` message value is either a
`BrokerValue` or a plain value carrying only a committable map. -/
inductive MessageValue where
  | broker (v : BrokerValue)
  | plain (payload : KafkaPayload) (committable : List (Partition × Nat))
  deriving Repr, DecidableEq

/-- Modelled from the spec: `arroyo.types.Message`, the unit fed to a
processing strategy. -/
structure Message where
  value : MessageValue
  deriving Repr, DecidableEq

/-- Modelled from the spec: a codec returned by the schema registry
(`sentry_kafka_schemas.get_codec`): a decoder bound to a schema,
turning raw bytes into a structured record when they validate. -/
structure Codec where
  schemaName : String
  decode : List Nat → Option (List Nat)

/-- One invocation of the external handler (`handle_message`), recorded
as the six positional arguments `process_message` passes, with the
codec identified by its schema name. -/
structure HandlerCall where
  payload : List Nat
  offset : Nat
  partition_index : Nat
  topic : String
  dataset : String
  codec : String
  deriving Repr, DecidableEq

/-- One `logger.exception` record with the `extra` context written by
`process_message` (run.py lines 101-108). -/
structure LogEntry where
  message : String
  offset : Nat
  partition : Nat
  value : List Nat
  deriving Repr, DecidableEq

/-- Outcome of one `process_message` call: a normal return carrying the
handler invocations made and the log records written, or an uncaught
`AssertionError` escaping to the caller. -/
inductive ProcessResult where
  | ok (calls : List HandlerCall) (logs : List LogEntry)
  | assertionError
  deriving Repr, DecidableEq

/-- The external handler contract: `(payload_value, offset,
partition_index, topic, dataset_value, codec)`, returning unit or
raising (modelled as `Except`). -/
abbrev Handler := List Nat → Nat → Nat → String → String → Codec → Except String Unit

/-- The message text of the skip log in run.py line 102. -/
def skipLogMessage : String :=
  "Unexpected error while handling message in QuerySubscriptionStrategy. Skipping message."

/-- Shallow embedding of `process_message` (run.py lines 72-108).
The message value is asserted to be a `BrokerValue`; offset, partition
index and raw payload bytes are extracted; the handler is invoked with
`(message_value, offset, partition, topic, dataset.value,
get_codec logical_topic)` inside a try block whose except-clause logs
`{offset, partition, value}` and returns normally.  The codec registry
`get_codec` is passed as a parameter. -/
def process_message (dataset : Dataset) (topic : String) (logical_topic : String)
    (get_codec : String → Codec) (handle_message : Handler)
    (message : Message) : ProcessResult :=
  match message.value with
  | MessageValue.broker v =>
      let offset := v.offset
      let partition := v.partition.index
      let message_value := v.payload.value
      let codec := get_codec logical_topic
      let call : HandlerCall :=
        ⟨message_value, offset, partition, topic, dataset.value, codec.schemaName⟩
      match handle_message message_value offset partition topic dataset.value codec with
      | Except.ok _ => ProcessResult.ok [call] []
      | Except.error _ =>
          ProcessResult.ok [call] [⟨skipLogMessage, offset, partition, message_value⟩]
  | MessageValue.plain _ _ => ProcessResult.assertionError

/-- The driver loop feeding messages to the per-message processor in
order: an uncaught `assertionError` terminates the consumer (second
component `true`), otherwise every message is processed and the results
are collected. -/
def runConsumer (pm : Message → ProcessResult) : List Message → List ProcessResult × Bool
  | [] => ([], false)
  | m :: ms =>
      match pm m with
      | ProcessResult.assertionError => ([ProcessResult.assertionError], true)
      | r =>
          let rest := runConsumer pm ms
          (r :: rest.1, rest.2)

/-- Modelled from the spec: `sentry.utils.arroyo.MultiprocessingPool`
(not under the sources given): a fixed number of long-lived execution
slots, open until closed. -/
structure MultiprocessingPool where
  numProcesses : Nat
  closed : Bool
  deriving Repr, DecidableEq

/-- Modelled from the spec: constructing a pool allocates `size` slots,
all open. -/
def MultiprocessingPool.construct (size : Nat) : MultiprocessingPool :=
  ⟨size, false⟩

/-- Modelled from the spec: closing the pool releases its slots. -/
def MultiprocessingPool.close (p : MultiprocessingPool) : MultiprocessingPool :=
  { p with closed := true }

/-- Modelled from the spec: submitting work after shutdown fails with
`PoolClosedError`. -/
inductive PoolClosedError where
  | poolClosed
  deriving Repr, DecidableEq

/-- Modelled from the spec: `submit` enqueues a unit of work and returns
a completion handle, unless the pool is already closed. -/
def MultiprocessingPool.submit (p : MultiprocessingPool) (task : Nat) :
    Except PoolClosedError Nat :=
  if p.closed then Except.error PoolClosedError.poolClosed else Except.ok task

/-- Modelled from the spec: the commit callback handed to
`create_with_partitions`, identified abstractly. -/
structure Commit where
  id : Nat
  deriving Repr, DecidableEq

/-- Modelled from the spec: the downstream stage of both dispatch
strategies is `CommitOffsets(commit)`. -/
inductive NextStep where
  | commitOffsets (commit : Commit)
  deriving Repr, DecidableEq

/-- The per-message callable `partial(process_message, dataset, topic,
logical_topic)`: it is determined by the three partially-applied
arguments (run.py line 54). -/
structure PMCallable where
  dataset : Dataset
  topic : String
  logical_topic : String
  deriving Repr, DecidableEq

/-- The processing strategy returned by `create_with_partitions`: a
multiprocessing dispatch stage (`RunTaskWithMultiprocessing` with its
batching and pool configuration) or a synchronous inline `RunTask`,
each feeding its next step. -/
inductive ProcessingStrategy where
  | runTaskWithMultiprocessing (callable : PMCallable)
      (max_batch_size : Nat) (max_batch_time : Nat)
      (pool : MultiprocessingPool)
      (input_block_size : Option Nat) (output_block_size : Option Nat)
      (next_step : NextStep)
  | runTask (callable : PMCallable) (next_step : NextStep)
  deriving Repr, DecidableEq

/-- The pool a strategy dispatches through, if any: `RunTask` runs
inline and uses none. -/
def ProcessingStrategy.poolUsed : ProcessingStrategy → Option MultiprocessingPool
  | ProcessingStrategy.runTaskWithMultiprocessing _ _ _ pool _ _ _ => some pool
  | ProcessingStrategy.runTask _ _ => none

/-- The per-message callable a strategy dispatches. -/
def ProcessingStrategy.callableOf : ProcessingStrategy → PMCallable
  | ProcessingStrategy.runTaskWithMultiprocessing c _ _ _ _ _ _ => c
  | ProcessingStrategy.runTask c _ => c

/-- Startup failure of the factory: the configured topic has no
registered dataset mapping (spec section 4.1). -/
inductive UnknownTopicError where
  | unknownTopic (topic : String)
  deriving Repr, DecidableEq

/-- The factory state bound at construction (run.py lines 29-47). -/
structure QuerySubscriptionStrategyFactory where
  topic : String
  dataset : Dataset
  logical_topic : String
  max_batch_size : Nat
  max_batch_time : Nat
  input_block_size : Option Nat
  output_block_size : Option Nat
  multi_proc : Bool
  pool : MultiprocessingPool
  deriving Repr, DecidableEq

/-- Shallow embedding of `QuerySubscriptionStrategyFactory.__init__`
(run.py lines 29-47).  The maps `topic_to_dataset` and
`dataset_to_logical_topic` live in `constants.py`, which is not under
the sources given; modelled from the spec as a lookup that fails with
`UnknownTopicError` when the topic has no dataset mapping, and a total
logical-topic assignment on registered datasets.  The pool is allocated
unconditionally with `num_processes` slots. -/
def QuerySubscriptionStrategyFactory.construct
    (topic_to_dataset : String → Option Dataset)
    (dataset_to_logical_topic : Dataset → String)
    (topic : String) (max_batch_size max_batch_time num_processes : Nat)
    (input_block_size output_block_size : Option Nat) (multi_proc : Bool) :
    Except UnknownTopicError QuerySubscriptionStrategyFactory :=
  match topic_to_dataset topic with
  | none => Except.error (UnknownTopicError.unknownTopic topic)
  | some ds =>
      Except.ok
        { topic := topic
          dataset := ds
          logical_topic := dataset_to_logical_topic ds
          max_batch_size := max_batch_size
          max_batch_time := max_batch_time
          input_block_size := input_block_size
          output_block_size := output_block_size
          multi_proc := multi_proc
          pool := MultiprocessingPool.construct num_processes }

/-- Shallow embedding of `create_with_partitions` (run.py lines 49-66),
in state-passing form: the method reads the factory fields, builds the
per-message callable, and returns the strategy together with the
(unmodified) factory state. -/
def create_with_partitions (f : QuerySubscriptionStrategyFactory) (commit : Commit) :
    ProcessingStrategy × QuerySubscriptionStrategyFactory :=
  let callable : PMCallable := ⟨f.dataset, f.topic, f.logical_topic⟩
  if f.multi_proc then
    (ProcessingStrategy.runTaskWithMultiprocessing callable
        f.max_batch_size f.max_batch_time f.pool
        f.input_block_size f.output_block_size
        (NextStep.commitOffsets commit), f)
  else
    (ProcessingStrategy.runTask callable (NextStep.commitOffsets commit), f)

/-- Shallow embedding of `QuerySubscriptionStrategyFactory.shutdown`
(run.py lines 68-69): closes the factory pool. -/
def QuerySubscriptionStrategyFactory.shutdown (f : QuerySubscriptionStrategyFactory) :
    QuerySubscriptionStrategyFactory :=
  { f with pool := f.pool.close }

/-- Modelled from the spec: the arroyo commit policy, a fixed
wall-clock cadence and an optional per-message-count trigger. -/
structure CommitPolicy where
  min_commit_frequency_sec : Option Nat
  min_commit_messages : Option Nat
  deriving Repr, DecidableEq

/-- Modelled from the spec: `arroyo.commit.ONCE_PER_SECOND`, the
once-per-second cadence constant with no per-message trigger. -/
def ONCE_PER_SECOND : CommitPolicy :=
  ⟨some 1, none⟩

/-- Modelled from the spec: the broker consumer configuration bundle
(cluster, group, offset-reset policy) resolved externally. -/
structure KafkaConsumerConfig where
  cluster : String
  group_id : String
  strict_offset_reset : Bool
  auto_offset_reset : String
  deriving Repr, DecidableEq

/-- Modelled from the spec: `arroyo.processing.StreamProcessor` as the
record of what `get_query_subscription_consumer` wires together. -/
structure StreamProcessor where
  consumer : KafkaConsumerConfig
  topic : String
  processor_factory : QuerySubscriptionStrategyFactory
  commit_policy : CommitPolicy
  deriving Repr, DecidableEq

/-- Shallow embedding of `get_query_subscription_consumer` (run.py
lines 111-151): resolves the cluster for the topic, builds the consumer
configuration, constructs the factory (whose unknown-topic failure
propagates), and wires the stream processor with the `ONCE_PER_SECOND`
commit policy.  Cluster resolution (`sentry.utils.kafka_config`, not
under the sources given) is passed as a parameter. -/
def get_query_subscription_consumer
    (topic_to_dataset : String → Option Dataset)
    (dataset_to_logical_topic : Dataset → String)
    (cluster_of : String → String)
    (topic group_id : String) (strict_offset_reset : Bool) (initial_offset_reset : String)
    (max_batch_size max_batch_time num_processes : Nat)
    (input_block_size output_block_size : Option Nat) (multi_proc : Bool) :
    Except UnknownTopicError StreamProcessor :=
  match QuerySubscriptionStrategyFactory.construct topic_to_dataset dataset_to_logical_topic
      topic max_batch_size max_batch_time num_processes
      input_block_size output_block_size multi_proc with
  | Except.error e => Except.error e
  | Except.ok f =>
      Except.ok
        { consumer := ⟨cluster_of topic, group_id, strict_offset_reset, initial_offset_reset⟩
          topic := topic
          processor_factory := f
          commit_policy := ONCE_PER_SECOND }

/-- Modelled from the spec: the batching state of the multiprocessing
dispatch stage (arroyo `RunTaskWithMultiprocessing`, not under the
sources given): a bounded accumulating batch with the time of its first
item. -/
structure BatchState (α : Type) where
  maxBatchSize : Nat
  maxBatchTime : Nat
  batch : List α
  batchStart : Option Nat
  deriving Repr, DecidableEq

/-- Modelled from the spec: the flush condition — the count has reached
`max_batch_size`, or the elapsed time since the batch's first item has
reached `max_batch_time` (whichever comes first). -/
def batchReady {α : Type} (s : BatchState α) (now : Nat) : Bool :=
  decide (s.maxBatchSize ≤ s.batch.length) ||
    (match s.batchStart with
     | some t0 => !s.batch.isEmpty && decide (s.maxBatchTime ≤ now - t0)
     | none => false)

/-- Modelled from the spec: submitting one unit appends it to the batch
(starting the batch clock on the first item) and flushes the whole
batch when the flush condition holds. -/
def submitBatch {α : Type} (s : BatchState α) (now : Nat) (item : α) :
    BatchState α × Option (List α) :=
  let s' : BatchState α :=
    { s with batch := s.batch ++ [item], batchStart := some (s.batchStart.getD now) }
  if batchReady s' now then
    ({ s' with batch := [], batchStart := none }, some s'.batch)
  else (s', none)

/-- Modelled from the spec: polling flushes the accumulated batch when
its deadline has passed. -/
def pollBatch {α : Type} (s : BatchState α) (now : Nat) :
    BatchState α × Option (List α) :=
  if batchReady s now then
    ({ s with batch := [], batchStart := none }, some s.batch)
  else (s, none)

/-- Modelled from the spec: closing the stage on shutdown flushes any
accumulated batch downstream before teardown completes, so no buffered
work is dropped. -/
def closeBatch {α : Type} (s : BatchState α) : BatchState α × Option (List α) :=
  if s.batch.isEmpty then ({ s with batchStart := none }, none)
  else ({ s with batch := [], batchStart := none }, some s.batch)

/-- Submitting a list of units in order at a fixed time, collecting
every flush emitted. -/
def submitAll {α : Type} (now : Nat) :
    BatchState α → List α → BatchState α × List (List α)
  | s, [] => (s, [])
  | s, item :: items =>
      match submitBatch s now item with
      | (s', fl) =>
          match submitAll now s' items with
          | (s'', fls) => (s'', fl.toList ++ fls)

/-- Submitting fewer units than `max_batch_size`, all at the batch's
start time with a positive `max_batch_time`, only accumulates: no flush
is emitted and the batch holds every unit in order. -/
theorem submitAll_accumulates {α : Type} (mbs mbt t0 : Nat) (hmbt : 0 < mbt) :
    ∀ (items b : List α) (st : Option Nat),
      (st = none ∨ st = some t0) →
      b.length + items.length < mbs →
      submitAll t0 ⟨mbs, mbt, b, st⟩ items =
        (⟨mbs, mbt, b ++ items, if items.isEmpty then st else some t0⟩, []) := by
  intro items
  induction items with
  | nil =>
      intro b st _ _
      simp [submitAll]
  | cons item items ih =>
      intro b st hst hlen
      have hlen2 : b.length + 1 + items.length < mbs := by
        simp only [List.length_cons] at hlen
        omega
      have ht0 : st.getD t0 = t0 := by
        rcases hst with rfl | rfl <;> rfl
      have hready : batchReady (⟨mbs, mbt, b ++ [item], some (st.getD t0)⟩ : BatchState α) t0
          = false := by
        simp [batchReady, ht0]
        constructor <;> omega
      have hstep : submitBatch (⟨mbs, mbt, b, st⟩ : BatchState α) t0 item =
          (⟨mbs, mbt, b ++ [item], some (st.getD t0)⟩, none) := by
        simp only [submitBatch, hready]
        simp
      have hrest := ih (b ++ [item]) (some t0) (Or.inr rfl)
        (by simp only [List.length_append, List.length_singleton]; omega)
      simp only [submitAll, hstep]
      rw [ht0, hrest]
      simp [List.append_assoc]

/-- On a broker-valued message, `process_message` never raises: the
handler invocation is wrapped in the try block. -/
theorem process_message_broker_ne_assert (dataset : Dataset) (topic logical_topic : String)
    (get_codec : String → Codec) (handle_message : Handler) (m : Message) (v : BrokerValue)
    (hm : m.value = MessageValue.broker v) :
    process_message dataset topic logical_topic get_codec handle_message m ≠
      ProcessResult.assertionError := by
  cases m with
  | mk mv =>
      cases hm
      simp only [process_message]
      cases handle_message v.payload.value v.offset v.partition.index topic dataset.value
          (get_codec logical_topic) <;> simp

/-- When no message makes the per-message processor raise, the driver
loop processes every message and does not terminate. -/
theorem runConsumer_no_crash (pm : Message → ProcessResult) :
    ∀ msgs : List Message, (∀ m ∈ msgs, pm m ≠ ProcessResult.assertionError) →
      runConsumer pm msgs = (msgs.map pm, false) := by
  intro msgs
  induction msgs with
  | nil => intro _; rfl
  | cons m ms ih =>
      intro h
      have hm : pm m ≠ ProcessResult.assertionError := h m (List.mem_cons_self m ms)
      have hms : ∀ m' ∈ ms, pm m' ≠ ProcessResult.assertionError := by
        intro m' hmem
        exact h m' (List.mem_cons_of_mem m hmem)
      simp only [runConsumer]
      cases hpm : pm m with
      | assertionError => exact absurd hpm hm
      | ok calls logs =>
          simp only [List.map, hpm, ih hms]

/-- A concrete dataset used in witnesses. -/
def exDataset : Dataset := ⟨"events"⟩

/-- A concrete broker value at offset 5. -/
def exBv1 : BrokerValue := ⟨⟨none, [1, 2], []⟩, ⟨"t", 0⟩, 5, 0⟩

/-- A concrete broker value at offset 6. -/
def exBv2 : BrokerValue := ⟨⟨none, [3], []⟩, ⟨"t", 0⟩, 6, 0⟩

/-- A broker-valued message at offset 5. -/
def exMsg1 : Message := ⟨MessageValue.broker exBv1⟩

/-- A broker-valued message at offset 6. -/
def exMsg2 : Message := ⟨MessageValue.broker exBv2⟩

/-- A message whose value is not a `BrokerValue`. -/
def exMsgPlain : Message := ⟨MessageValue.plain ⟨none, [9], []⟩ []⟩

/-- A concrete codec whose decode succeeds identically. -/
def exCodec : Codec := ⟨"c", fun l => some l⟩

/-- A codec registry resolving every logical topic to `exCodec`. -/
def exResolver : String → Codec := fun _ => exCodec

/-- A handler that raises on every message. -/
def exHandlerFail : Handler := fun _ _ _ _ _ _ => Except.error "boom"

/-- A handler that succeeds on every message. -/
def exHandlerOk : Handler := fun _ _ _ _ _ _ => Except.ok ()

/-- C1: any exception raised during the external handler invocation
inside `process_message` is caught, logged with the context
`{offset, partition, value}`, and converted into a no-op: the call
returns normally and the message counts as consumed; consequently a
handler that raises at offset k does not prevent processing of later
messages and the consumer does not terminate. -/
theorem process_message_isolates_handler_failures
    (dataset : Dataset) (topic logical_topic : String) (get_codec : String → Codec)
    (handle_message : Handler) (m : Message) (v : BrokerValue) (e : String)
    (hm : m.value = MessageValue.broker v)
    (hfail : handle_message v.payload.value v.offset v.partition.index topic dataset.value
        (get_codec logical_topic) = Except.error e) :
    process_message dataset topic logical_topic get_codec handle_message m =
      ProcessResult.ok
        [⟨v.payload.value, v.offset, v.partition.index, topic, dataset.value,
          (get_codec logical_topic).schemaName⟩]
        [⟨skipLogMessage, v.offset, v.partition.index, v.payload.value⟩]
    ∧ ∀ msgs : List Message,
        (∀ m' ∈ msgs, ∃ bv, m'.value = MessageValue.broker bv) →
        runConsumer (process_message dataset topic logical_topic get_codec handle_message)
            msgs =
          (msgs.map (process_message dataset topic logical_topic get_codec handle_message),
            false) := by
  constructor
  · cases m with
    | mk mv =>
        cases hm
        simp only [process_message, hfail]
  · intro msgs hall
    apply runConsumer_no_crash
    intro m' hmem
    obtain ⟨bv, hbv⟩ := hall m' hmem
    exact process_message_broker_ne_assert dataset topic logical_topic get_codec
      handle_message m' bv hbv

/-- Witness for C1 at a concrete raising handler and two concrete
broker messages. -/
theorem process_message_isolates_handler_failures_witness :
    process_message exDataset "t" "lt" exResolver exHandlerFail exMsg1 =
      ProcessResult.ok [⟨[1, 2], 5, 0, "t", "events", "c"⟩]
        [⟨skipLogMessage, 5, 0, [1, 2]⟩]
    ∧ runConsumer (process_message exDataset "t" "lt" exResolver exHandlerFail)
        [exMsg1, exMsg2] =
      ([exMsg1, exMsg2].map (process_message exDataset "t" "lt" exResolver exHandlerFail),
        false) := by
  have h := process_message_isolates_handler_failures exDataset "t" "lt" exResolver
    exHandlerFail exMsg1 exBv1 "boom" rfl rfl
  refine ⟨h.1, h.2 [exMsg1, exMsg2] ?_⟩
  intro m' hm'
  simp only [List.mem_cons, List.not_mem_nil, or_false] at hm'
  rcases hm' with rfl | rfl
  · exact ⟨exBv1, rfl⟩
  · exact ⟨exBv2, rfl⟩

/-- The behaviour C2 states, written from the spec's words for
comparison: every handler invocation made by `process_message` passes
the decode of the raw payload under the logical topic's codec, so the
handler runs only when that decode succeeds and receives the decoded
record rather than the raw bytes. -/
def DecodesBeforeInvoke (dataset : Dataset) (topic logical_topic : String)
    (get_codec : String → Codec) : Prop :=
  ∀ (handle_message : Handler) (v : BrokerValue) (calls : List HandlerCall)
    (logs : List LogEntry),
    process_message dataset topic logical_topic get_codec handle_message
        ⟨MessageValue.broker v⟩ = ProcessResult.ok calls logs →
    ∀ c ∈ calls,
      ∃ d, (get_codec logical_topic).decode v.payload.value = some d ∧ c.payload = d

/-- Counterexample to C2 as stated: with a codec whose decode fails on
the raw bytes `[1, 2]`, `process_message` still invokes the handler,
and passes it the raw bytes — not a decoded record. -/
theorem process_message_decodes_before_invoke_cex :
    ¬ DecodesBeforeInvoke ⟨"events"⟩ "t" "lt" (fun _ => ⟨"cf", fun _ => none⟩) := by
  intro h
  have h2 := h exHandlerOk ⟨⟨none, [1, 2], []⟩, ⟨"t", 0⟩, 5, 0⟩
      [⟨[1, 2], 5, 0, "t", "events", "cf"⟩] [] rfl
      ⟨[1, 2], 5, 0, "t", "events", "cf"⟩ (List.mem_singleton.mpr rfl)
  rcases h2 with ⟨d, hd, _⟩
  exact Option.noConfusion hd

/-- C2 amended: for every broker-valued message, `process_message`
extracts `(offset, partition_index, raw_payload)`, resolves the codec
registered for the logical topic, and invokes the external handler
unconditionally with the six arguments `(raw_payload, offset,
partition_index, topic, dataset, codec)`: the handler receives the raw
bytes together with the codec, and decoding is delegated to it. -/
theorem process_message_handler_receives_raw_payload
    (dataset : Dataset) (topic logical_topic : String) (get_codec : String → Codec)
    (handle_message : Handler) (m : Message) (v : BrokerValue)
    (hm : m.value = MessageValue.broker v) :
    ∃ logs, process_message dataset topic logical_topic get_codec handle_message m =
      ProcessResult.ok
        [⟨v.payload.value, v.offset, v.partition.index, topic, dataset.value,
          (get_codec logical_topic).schemaName⟩] logs := by
  cases m with
  | mk mv =>
      cases hm
      simp only [process_message]
      cases handle_message v.payload.value v.offset v.partition.index topic dataset.value
          (get_codec logical_topic) with
      | ok _ => exact ⟨[], rfl⟩
      | error _ =>
          exact ⟨[⟨skipLogMessage, v.offset, v.partition.index, v.payload.value⟩], rfl⟩

/-- Witness for the amended C2 at a concrete message and codec. -/
theorem process_message_handler_receives_raw_payload_witness :
    ∃ logs, process_message exDataset "t" "lt" exResolver exHandlerOk exMsg1 =
      ProcessResult.ok [⟨[1, 2], 5, 0, "t", "events", "c"⟩] logs :=
  process_message_handler_receives_raw_payload exDataset "t" "lt" exResolver
    exHandlerOk exMsg1 exBv1 rfl

/-- C8: `process_message` asserts the message value is a `BrokerValue`
before its try block: for any non-broker value the `AssertionError`
propagates to the caller uncaught, while broker-valued messages never
raise — the per-message catch covers only the handler invocation. -/
theorem process_message_asserts_broker_value
    (dataset : Dataset) (topic logical_topic : String) (get_codec : String → Codec)
    (handle_message : Handler) (m : Message) :
    ((∀ v, m.value ≠ MessageValue.broker v) →
       process_message dataset topic logical_topic get_codec handle_message m =
         ProcessResult.assertionError)
    ∧ (∀ v, m.value = MessageValue.broker v →
       process_message dataset topic logical_topic get_codec handle_message m ≠
         ProcessResult.assertionError) := by
  constructor
  · intro hnb
    cases m with
    | mk mv =>
        cases mv with
        | broker v => exact absurd rfl (hnb v)
        | plain p c => rfl
  · intro v hv
    exact process_message_broker_ne_assert dataset topic logical_topic get_codec
      handle_message m v hv

/-- Witness for C8 at a concrete non-broker message and a concrete
broker message. -/
theorem process_message_asserts_broker_value_witness :
    process_message exDataset "t" "lt" exResolver exHandlerFail exMsgPlain =
      ProcessResult.assertionError
    ∧ process_message exDataset "t" "lt" exResolver exHandlerFail exMsg1 ≠
      ProcessResult.assertionError := by
  refine ⟨(process_message_asserts_broker_value exDataset "t" "lt" exResolver
      exHandlerFail exMsgPlain).1 ?_,
    (process_message_asserts_broker_value exDataset "t" "lt" exResolver
      exHandlerFail exMsg1).2 exBv1 rfl⟩
  intro v hv
  simp [exMsgPlain] at hv

/-- A concrete multiprocessing-mode factory used in witnesses. -/
def exFactoryMP : QuerySubscriptionStrategyFactory :=
  ⟨"t", exDataset, "lt", 2, 10, some 1, none, true, ⟨4, false⟩⟩

/-- A concrete registered topic map used in witnesses. -/
def exTopicToDataset : String → Option Dataset :=
  fun t => if t = "events-subscription-results" then some exDataset else none

/-- A concrete logical-topic assignment used in witnesses. -/
def exDatasetToLogicalTopic : Dataset → String :=
  fun _ => "events-subscription-results-logical"

/-- The factory `construct` yields on the registered topic in
multiprocessing mode. -/
def exFactoryReg : QuerySubscriptionStrategyFactory :=
  ⟨"events-subscription-results", exDataset, "events-subscription-results-logical",
    2, 10, some 1, none, true, ⟨4, false⟩⟩

/-- The factory `construct` yields on the registered topic in
synchronous mode. -/
def exFactoryRegSync : QuerySubscriptionStrategyFactory :=
  ⟨"events-subscription-results", exDataset, "events-subscription-results-logical",
    2, 10, some 1, none, false, ⟨4, false⟩⟩

/-- C3: `create_with_partitions` returns, when `multi_proc` is set, a
multiprocessing dispatch strategy configured with the factory's batch
bounds, shared pool and block sizes feeding `CommitOffsets`, whose
accumulated batch flushes when the count reaches `max_batch_size` or
the elapsed time since the batch's first item reaches `max_batch_time`;
and, when `multi_proc` is unset, a synchronous inline `RunTask` of the
same per-message callable feeding `CommitOffsets`, with the pool
bypassed. -/
theorem create_with_partitions_dispatch_modes
    (f : QuerySubscriptionStrategyFactory) (commit : Commit) :
    (f.multi_proc = true →
      (create_with_partitions f commit).1 =
        ProcessingStrategy.runTaskWithMultiprocessing
          ⟨f.dataset, f.topic, f.logical_topic⟩
          f.max_batch_size f.max_batch_time f.pool
          f.input_block_size f.output_block_size
          (NextStep.commitOffsets commit))
    ∧ (f.multi_proc = false →
      (create_with_partitions f commit).1 =
        ProcessingStrategy.runTask ⟨f.dataset, f.topic, f.logical_topic⟩
          (NextStep.commitOffsets commit)
      ∧ ((create_with_partitions f commit).1).poolUsed = none)
    ∧ (∀ (s : BatchState Nat) (now item : Nat),
        s.batch.length + 1 = s.maxBatchSize →
        submitBatch s now item =
          (⟨s.maxBatchSize, s.maxBatchTime, [], none⟩, some (s.batch ++ [item])))
    ∧ (∀ (s : BatchState Nat) (now t0 : Nat),
        s.batchStart = some t0 → s.batch ≠ [] → s.maxBatchTime ≤ now - t0 →
        pollBatch s now =
          (⟨s.maxBatchSize, s.maxBatchTime, [], none⟩, some s.batch)) := by
  refine ⟨?_, ?_, ?_, ?_⟩
  · intro h
    simp [create_with_partitions, h]
  · intro h
    constructor <;> simp [create_with_partitions, h, ProcessingStrategy.poolUsed]
  · intro s now item h
    obtain ⟨mbs, mbt, b, st⟩ := s
    have hb : b.length + 1 = mbs := h
    have hready :
        batchReady (⟨mbs, mbt, b ++ [item], some (st.getD now)⟩ : BatchState Nat) now =
          true := by
      simp only [batchReady, Bool.or_eq_true, decide_eq_true_eq]
      left
      simp only [List.length_append, List.length_singleton]
      omega
    simp only [submitBatch, hready]
    simp
  · intro s now t0 h1 h2 h3
    obtain ⟨mbs, mbt, b, st⟩ := s
    have hst : st = some t0 := h1
    have hb : b ≠ [] := h2
    have ht : mbt ≤ now - t0 := h3
    have hie : b.isEmpty = false := by
      cases b with
      | nil => exact absurd rfl hb
      | cons a l => rfl
    have hready : batchReady (⟨mbs, mbt, b, st⟩ : BatchState Nat) now = true := by
      subst hst
      simp only [batchReady, Bool.or_eq_true, decide_eq_true_eq, hie,
        Bool.not_false, Bool.true_and]
      right
      exact ht
    simp only [pollBatch, hready]
    simp

/-- Witness for C3 at a concrete factory, a full batch and an
expired batch deadline. -/
theorem create_with_partitions_dispatch_modes_witness :
    (create_with_partitions exFactoryMP ⟨0⟩).1 =
      ProcessingStrategy.runTaskWithMultiprocessing ⟨exDataset, "t", "lt"⟩ 2 10 ⟨4, false⟩
        (some 1) none (NextStep.commitOffsets ⟨0⟩)
    ∧ ((create_with_partitions exFactoryRegSync ⟨0⟩).1 =
        ProcessingStrategy.runTask
          ⟨exDataset, "events-subscription-results", "events-subscription-results-logical"⟩
          (NextStep.commitOffsets ⟨0⟩)
      ∧ ((create_with_partitions exFactoryRegSync ⟨0⟩).1).poolUsed = none)
    ∧ submitBatch (⟨2, 10, [7], some 0⟩ : BatchState Nat) 0 8 =
        (⟨2, 10, [], none⟩, some [7, 8])
    ∧ pollBatch (⟨2, 10, [7], some 0⟩ : BatchState Nat) 10 =
        (⟨2, 10, [], none⟩, some [7]) := by
  have h1 := create_with_partitions_dispatch_modes exFactoryMP ⟨0⟩
  have h2 := create_with_partitions_dispatch_modes exFactoryRegSync ⟨0⟩
  exact ⟨h1.1 rfl, h2.2.1 rfl,
    h1.2.2.1 ⟨2, 10, [7], some 0⟩ 0 8 rfl,
    h1.2.2.2 ⟨2, 10, [7], some 0⟩ 10 0 rfl (by decide) (by decide)⟩

/-- C4: constructing the factory with a topic that has a registered
dataset mapping succeeds and binds the topic's dataset and logical
topic; with no mapping it fails with `UnknownTopicError`, which also
propagates fatally out of `get_query_subscription_consumer` rather than
being absorbed per-message. -/
theorem factory_construction_topic_mapping
    (topic_to_dataset : String → Option Dataset)
    (dataset_to_logical_topic : Dataset → String)
    (cluster_of : String → String)
    (topic group_id : String) (sor : Bool) (ior : String)
    (mbs mbt np : Nat) (ibs obs : Option Nat) (mp : Bool) :
    (∀ ds, topic_to_dataset topic = some ds →
      QuerySubscriptionStrategyFactory.construct topic_to_dataset dataset_to_logical_topic
          topic mbs mbt np ibs obs mp =
        Except.ok ⟨topic, ds, dataset_to_logical_topic ds, mbs, mbt, ibs, obs, mp,
          ⟨np, false⟩⟩)
    ∧ (topic_to_dataset topic = none →
      QuerySubscriptionStrategyFactory.construct topic_to_dataset dataset_to_logical_topic
          topic mbs mbt np ibs obs mp =
        Except.error (UnknownTopicError.unknownTopic topic)
      ∧ get_query_subscription_consumer topic_to_dataset dataset_to_logical_topic cluster_of
          topic group_id sor ior mbs mbt np ibs obs mp =
        Except.error (UnknownTopicError.unknownTopic topic)) := by
  constructor
  · intro ds h
    simp [QuerySubscriptionStrategyFactory.construct, h, MultiprocessingPool.construct]
  · intro h
    constructor
    · simp [QuerySubscriptionStrategyFactory.construct, h]
    · simp [get_query_subscription_consumer, QuerySubscriptionStrategyFactory.construct, h]

/-- Witness for C4 at a concrete registered topic and a concrete
unregistered topic. -/
theorem factory_construction_topic_mapping_witness :
    QuerySubscriptionStrategyFactory.construct exTopicToDataset exDatasetToLogicalTopic
        "events-subscription-results" 2 10 4 (some 1) none true =
      Except.ok ⟨"events-subscription-results", exDataset,
        exDatasetToLogicalTopic exDataset, 2, 10, some 1, none, true, ⟨4, false⟩⟩
    ∧ QuerySubscriptionStrategyFactory.construct exTopicToDataset exDatasetToLogicalTopic
        "unregistered" 2 10 4 (some 1) none true =
      Except.error (UnknownTopicError.unknownTopic "unregistered")
    ∧ get_query_subscription_consumer exTopicToDataset exDatasetToLogicalTopic
        (fun _ => "cl") "unregistered" "grp" true "latest" 2 10 4 (some 1) none true =
      Except.error (UnknownTopicError.unknownTopic "unregistered") := by
  have h1 := factory_construction_topic_mapping exTopicToDataset exDatasetToLogicalTopic
    (fun _ => "cl") "events-subscription-results" "grp" true "latest" 2 10 4 (some 1) none true
  have h2 := factory_construction_topic_mapping exTopicToDataset exDatasetToLogicalTopic
    (fun _ => "cl") "unregistered" "grp" true "latest" 2 10 4 (some 1) none true
  exact ⟨h1.1 exDataset (by decide), (h2.2 (by decide)).1, (h2.2 (by decide)).2⟩

/-- C5: every successfully constructed consumer carries the
`ONCE_PER_SECOND` commit policy constant: a fixed once-per-second
wall-clock cadence with no per-message-count trigger. -/
theorem consumer_commit_policy_once_per_second
    (topic_to_dataset : String → Option Dataset)
    (dataset_to_logical_topic : Dataset → String)
    (cluster_of : String → String)
    (topic group_id : String) (sor : Bool) (ior : String)
    (mbs mbt np : Nat) (ibs obs : Option Nat) (mp : Bool)
    (sp : StreamProcessor)
    (h : get_query_subscription_consumer topic_to_dataset dataset_to_logical_topic cluster_of
        topic group_id sor ior mbs mbt np ibs obs mp = Except.ok sp) :
    sp.commit_policy = ONCE_PER_SECOND
    ∧ ONCE_PER_SECOND.min_commit_frequency_sec = some 1
    ∧ ONCE_PER_SECOND.min_commit_messages = none := by
  refine ⟨?_, rfl, rfl⟩
  revert h
  unfold get_query_subscription_consumer
  cases QuerySubscriptionStrategyFactory.construct topic_to_dataset dataset_to_logical_topic
      topic mbs mbt np ibs obs mp with
  | error e => intro h; exact Except.noConfusion h
  | ok f =>
      intro h
      injection h with h'
      subst h'
      rfl

/-- Witness for C5 at a concrete configuration. -/
theorem consumer_commit_policy_once_per_second_witness :
    ∃ sp, get_query_subscription_consumer exTopicToDataset exDatasetToLogicalTopic
        (fun _ => "cl") "events-subscription-results" "grp" true "latest"
        2 10 4 (some 1) none true = Except.ok sp
      ∧ sp.commit_policy = ONCE_PER_SECOND := by
  refine ⟨_, rfl, ?_⟩
  exact (consumer_commit_policy_once_per_second exTopicToDataset exDatasetToLogicalTopic
    (fun _ => "cl") "events-subscription-results" "grp" true "latest"
    2 10 4 (some 1) none true _ rfl).1

/-- C6: the pool is started with `num_processes` open slots at factory
construction, the factory's shutdown closes exactly that pool, and
submitting work after shutdown fails with `PoolClosedError` rather than
executing, while the open pool accepts work. -/
theorem pool_lifecycle_and_submit_after_close
    (topic_to_dataset : String → Option Dataset)
    (dataset_to_logical_topic : Dataset → String)
    (topic : String) (mbs mbt np : Nat) (ibs obs : Option Nat) (mp : Bool)
    (f : QuerySubscriptionStrategyFactory)
    (hinit : QuerySubscriptionStrategyFactory.construct topic_to_dataset
        dataset_to_logical_topic topic mbs mbt np ibs obs mp = Except.ok f)
    (task : Nat) :
    f.pool = MultiprocessingPool.construct np
    ∧ f.pool = ⟨np, false⟩
    ∧ f.shutdown.pool = ⟨np, true⟩
    ∧ f.shutdown.pool.submit task = Except.error PoolClosedError.poolClosed
    ∧ f.pool.submit task = Except.ok task := by
  revert hinit
  unfold QuerySubscriptionStrategyFactory.construct
  cases topic_to_dataset topic with
  | none => intro h; exact Except.noConfusion h
  | some ds =>
      intro h
      injection h with h'
      subst h'
      exact ⟨rfl, rfl, rfl, rfl, rfl⟩

/-- Witness for C6 at a concrete factory construction. -/
theorem pool_lifecycle_and_submit_after_close_witness :
    exFactoryReg.pool = MultiprocessingPool.construct 4
    ∧ exFactoryReg.pool = ⟨4, false⟩
    ∧ exFactoryReg.shutdown.pool = ⟨4, true⟩
    ∧ exFactoryReg.shutdown.pool.submit 7 = Except.error PoolClosedError.poolClosed
    ∧ exFactoryReg.pool.submit 7 = Except.ok 7 :=
  pool_lifecycle_and_submit_after_close exTopicToDataset exDatasetToLogicalTopic
    "events-subscription-results" 2 10 4 (some 1) none true exFactoryReg rfl 7

/-- C7: when the stage shuts down while fewer than `max_batch_size`
items are accumulated and the batch deadline has not elapsed, no flush
has happened yet and closing the stage flushes exactly the accumulated
items downstream, so no buffered work is silently dropped. -/
theorem shutdown_drains_unflushed_batch (mbs mbt t0 : Nat) (items : List Nat)
    (hmbt : 0 < mbt) (hlen : items.length < mbs) (hne : items ≠ []) :
    (submitAll t0 (⟨mbs, mbt, [], none⟩ : BatchState Nat) items).2 = []
    ∧ closeBatch (submitAll t0 (⟨mbs, mbt, [], none⟩ : BatchState Nat) items).1 =
        (⟨mbs, mbt, [], none⟩, some items) := by
  have h := submitAll_accumulates mbs mbt t0 hmbt items [] none (Or.inl rfl)
    (by simpa using hlen)
  rw [h]
  have hie : items.isEmpty = false := by
    cases items with
    | nil => exact absurd rfl hne
    | cons a l => rfl
  refine ⟨rfl, ?_⟩
  simp [closeBatch, hie]

/-- Witness for C7: four items below a batch size of ten are all
flushed by the close. -/
theorem shutdown_drains_unflushed_batch_witness :
    (submitAll 0 (⟨10, 1, [], none⟩ : BatchState Nat) [1, 2, 3, 4]).2 = []
    ∧ closeBatch (submitAll 0 (⟨10, 1, [], none⟩ : BatchState Nat) [1, 2, 3, 4]).1 =
        (⟨10, 1, [], none⟩, some [1, 2, 3, 4]) :=
  shutdown_drains_unflushed_batch 10 1 0 [1, 2, 3, 4] (by decide) (by decide) (by decide)

/-- C9: the factory allocates the multiprocessing pool with
`num_processes` slots even when `multi_proc` is disabled; in that mode
the created strategy uses no pool, yet the factory's shutdown still
closes the allocated pool. -/
theorem pool_allocated_regardless_of_multi_proc
    (topic_to_dataset : String → Option Dataset)
    (dataset_to_logical_topic : Dataset → String)
    (topic : String) (mbs mbt np : Nat) (ibs obs : Option Nat)
    (f : QuerySubscriptionStrategyFactory)
    (hinit : QuerySubscriptionStrategyFactory.construct topic_to_dataset
        dataset_to_logical_topic topic mbs mbt np ibs obs false = Except.ok f)
    (commit : Commit) :
    f.pool = MultiprocessingPool.construct np
    ∧ f.multi_proc = false
    ∧ ((create_with_partitions f commit).1).poolUsed = none
    ∧ f.shutdown.pool = (MultiprocessingPool.construct np).close := by
  revert hinit
  unfold QuerySubscriptionStrategyFactory.construct
  cases topic_to_dataset topic with
  | none => intro h; exact Except.noConfusion h
  | some ds =>
      intro h
      injection h with h'
      subst h'
      exact ⟨rfl, rfl, rfl, rfl⟩

/-- Witness for C9 at a concrete synchronous-mode construction. -/
theorem pool_allocated_regardless_of_multi_proc_witness :
    exFactoryRegSync.pool = MultiprocessingPool.construct 4
    ∧ exFactoryRegSync.multi_proc = false
    ∧ ((create_with_partitions exFactoryRegSync ⟨0⟩).1).poolUsed = none
    ∧ exFactoryRegSync.shutdown.pool = (MultiprocessingPool.construct 4).close :=
  pool_allocated_regardless_of_multi_proc exTopicToDataset exDatasetToLogicalTopic
    "events-subscription-results" 2 10 4 (some 1) none exFactoryRegSync rfl ⟨0⟩

/-- C10: `create_with_partitions` never mutates the factory: after any
call every field is unchanged, and the multiprocessing strategies
created across successive calls all carry the single pool bound at
construction. -/
theorem create_with_partitions_preserves_factory
    (f : QuerySubscriptionStrategyFactory) (c1 c2 : Commit) :
    (create_with_partitions f c1).2 = f
    ∧ (create_with_partitions f c1).2.topic = f.topic
    ∧ (create_with_partitions f c1).2.dataset = f.dataset
    ∧ (create_with_partitions f c1).2.logical_topic = f.logical_topic
    ∧ (create_with_partitions f c1).2.max_batch_size = f.max_batch_size
    ∧ (create_with_partitions f c1).2.max_batch_time = f.max_batch_time
    ∧ (create_with_partitions f c1).2.input_block_size = f.input_block_size
    ∧ (create_with_partitions f c1).2.output_block_size = f.output_block_size
    ∧ (create_with_partitions f c1).2.multi_proc = f.multi_proc
    ∧ (create_with_partitions f c1).2.pool = f.pool
    ∧ (f.multi_proc = true →
        ((create_with_partitions f c1).1).poolUsed = some f.pool
        ∧ ((create_with_partitions f c1).1).poolUsed =
            ((create_with_partitions f c2).1).poolUsed) := by
  have h2 : ∀ c : Commit, (create_with_partitions f c).2 = f := by
    intro c
    cases hmp : f.multi_proc <;> simp [create_with_partitions, hmp]
  have hpool : f.multi_proc = true →
      ∀ c : Commit, ((create_with_partitions f c).1).poolUsed = some f.pool := by
    intro hmp c
    simp [create_with_partitions, hmp, ProcessingStrategy.poolUsed]
  refine ⟨h2 c1, ?_, ?_, ?_, ?_, ?_, ?_, ?_, ?_, ?_, ?_⟩
  · rw [h2 c1]
  · rw [h2 c1]
  · rw [h2 c1]
  · rw [h2 c1]
  · rw [h2 c1]
  · rw [h2 c1]
  · rw [h2 c1]
  · rw [h2 c1]
  · rw [h2 c1]
  · intro hmp
    exact ⟨hpool hmp c1, by rw [hpool hmp c1, hpool hmp c2]⟩

/-- Witness for C10 at a concrete multiprocessing factory and two
distinct rebalance commits. -/
theorem create_with_partitions_preserves_factory_witness :
    (create_with_partitions exFactoryMP ⟨0⟩).2 = exFactoryMP
    ∧ ((create_with_partitions exFactoryMP ⟨0⟩).1).poolUsed = some exFactoryMP.pool
    ∧ ((create_with_partitions exFactoryMP ⟨0⟩).1).poolUsed =
        ((create_with_partitions exFactoryMP ⟨1⟩).1).poolUsed := by
  have h := create_with_partitions_preserves_factory exFactoryMP ⟨0⟩ ⟨1⟩
  exact ⟨h.1, (h.2.2.2.2.2.2.2.2.2.2 rfl).1, (h.2.2.2.2.2.2.2.2.2.2 rfl).2⟩

end SubscriptionConsumer
